import Mathlib

/-!
Shallow embedding of the message-dispatch core of the httpmq gateway.

The Go sources embedded here:
- the JetStream inflight message tracker (`ProcessInflightMessage`,
  `ProcessMsgACK`) with its three-level nested inflight map;
- the JetStream publisher's `Publish` select over ack / nack / cancellation;
- the push message dispatcher's `Start` sequence and its forward callback;
- a discrete-time model of the interval timer (its implementation file is
  not part of the sources here, only its test; it is modelled from the spec).

Go maps are modelled as association lists with unique keys (`lookupA`,
`insertA`, `eraseA`); a Go `error` result is `Option GoError` with `none`
standing for Go's `nil`.
-/

namespace Httpmq

/-- Go errors are modelled by their message strings. -/
abbrev GoError := String

/-- Lookup in an association-list model of a Go map. -/
def lookupA {κ α : Type} [DecidableEq κ] : List (κ × α) → κ → Option α
  | [], _ => none
  | (k', v) :: rest, k => if k' = k then some v else lookupA rest k

/-- Insert/overwrite in an association-list model of a Go map: replaces the
value at an existing key in place, otherwise appends the new binding. -/
def insertA {κ α : Type} [DecidableEq κ] : List (κ × α) → κ → α → List (κ × α)
  | [], k, v => [(k, v)]
  | (k', v') :: rest, k, v =>
    if k' = k then (k, v) :: rest else (k', v') :: insertA rest k v

/-- Deletion in an association-list model of a Go map (keys are unique, so
removing the first occurrence is removal of the key). -/
def eraseA {κ α : Type} [DecidableEq κ] : List (κ × α) → κ → List (κ × α)
  | [], _ => []
  | (k', v') :: rest, k => if k' = k then rest else (k', v') :: eraseA rest k

/-- `nats.MsgMetadata` as used by the tracker: stream, consumer and the
stream/consumer sequence numbers. -/
structure MsgMeta where
  stream : String
  consumer : String
  seqStream : Nat
  seqConsumer : Nat
deriving DecidableEq

/-- Result of `msg.Metadata()`: either the descriptor or a Go error. -/
inductive MetaResult where
  | err (e : GoError)
  | ok (m : MsgMeta)
deriving DecidableEq

/-- A `nats.Msg` handle as the tracker sees it: its payload, the outcome of
`Metadata()`, and the modelled outcome of a future `AckSync()` call
(`none` = the broker ack-sync succeeds, `some e` = it fails with `e`). -/
structure NatsMsg where
  payload : String
  metadata : MetaResult
  ackSyncErr : Option GoError
deriving DecidableEq

/-- The sequence-number pair carried by an ack indication. -/
structure AckSeqNum where
  stream : Nat
  consumer : Nat
deriving DecidableEq

/-- `AckIndication`: parsed from the broker's ack-report subject;
`ProcessMsgACK` uses its stream, consumer, and `seqNum.stream`. -/
structure AckIndication where
  stream : String
  consumer : String
  seqNum : AckSeqNum
deriving DecidableEq

/-- `perConsumerInflightMessages.inflight`: stream-sequence → message. -/
abbrev perConsumerInflightMessages := List (Nat × NatsMsg)

/-- `perStreamInflightMessages.consumers`: consumer name → per-consumer set. -/
abbrev perStreamInflightMessages := List (String × perConsumerInflightMessages)

/-- The tracker state `jetStreamInflightMsgProcessorImpl`: the bound subject
and consumer, and the nested `inflightPerStream` map. -/
structure jetStreamInflightMsgProcessorImpl where
  subject : String
  consumer : String
  inflightPerStream : List (String × perStreamInflightMessages)
deriving DecidableEq

/-- A freshly constructed tracker (`getJetStreamInflightMsgProcessor`):
empty inflight map. -/
def initialTracker (subject consumer : String) : jetStreamInflightMsgProcessorImpl :=
  { subject := subject, consumer := consumer, inflightPerStream := [] }

/-- `ProcessInflightMessage`: records a new inflight message awaiting ACK.
Fails when metadata is unobtainable or the metadata's consumer differs from
the tracker's; otherwise inserts the message under
(stream, tracker consumer, stream sequence), creating levels as needed. -/
def ProcessInflightMessage (c : jetStreamInflightMsgProcessorImpl) (msg : NatsMsg) :
    Option GoError × jetStreamInflightMsgProcessorImpl :=
  match msg.metadata with
  | MetaResult.err e => (some e, c)
  | MetaResult.ok meta =>
    if c.consumer ≠ meta.consumer then
      (some ("message expected for " ++ c.consumer ++ ", but meta says " ++ meta.consumer), c)
    else
      let perStreamRecords := (lookupA c.inflightPerStream meta.stream).getD []
      let perConsumerRecords := (lookupA perStreamRecords c.consumer).getD []
      let newConsumerRecords := insertA perConsumerRecords meta.seqStream msg
      let newStreamRecords := insertA perStreamRecords c.consumer newConsumerRecords
      (none,
       { c with inflightPerStream := insertA c.inflightPerStream meta.stream newStreamRecords })

/-- `ProcessMsgACK`: processes a message ACK. The third component is the
list of messages on which `AckSync()` was invoked during the call. -/
def ProcessMsgACK (c : jetStreamInflightMsgProcessorImpl) (ack : AckIndication) :
    Option GoError × jetStreamInflightMsgProcessorImpl × List NatsMsg :=
  match lookupA c.inflightPerStream ack.stream with
  | none => (some ("no records related to stream " ++ ack.stream), c, [])
  | some perStreamRecords =>
    match lookupA perStreamRecords ack.consumer with
    | none =>
      (some ("no records related to consumer " ++ ack.consumer ++ " on stream " ++ ack.stream),
       c, [])
    | some perConsumerRecords =>
      match lookupA perConsumerRecords ack.seqNum.stream with
      | none =>
        (some ("no records related message [" ++ toString ack.seqNum.stream ++ "] for "
               ++ ack.consumer ++ "@" ++ ack.stream), c, [])
      | some msg =>
        match msg.ackSyncErr with
        | some e => (some e, c, [msg])
        | none =>
          let newConsumerRecords := eraseA perConsumerRecords ack.seqNum.stream
          let newStreamRecords := insertA perStreamRecords ack.consumer newConsumerRecords
          (none,
           { c with inflightPerStream := insertA c.inflightPerStream ack.stream newStreamRecords },
           [msg])

/-- Full three-level lookup into the inflight map. -/
def lookupInflight (c : jetStreamInflightMsgProcessorImpl)
    (stream consumer : String) (seq : Nat) : Option NatsMsg :=
  match lookupA c.inflightPerStream stream with
  | none => none
  | some perStreamRecords =>
    match lookupA perStreamRecords consumer with
    | none => none
    | some perConsumerRecords => lookupA perConsumerRecords seq

/-- States of the tracker reachable from a fresh instance through the two
task-processor handlers. -/
inductive Reachable : jetStreamInflightMsgProcessorImpl → Prop where
  | init (subject consumer : String) : Reachable (initialTracker subject consumer)
  | record (c : jetStreamInflightMsgProcessorImpl) (msg : NatsMsg) :
      Reachable c → Reachable (ProcessInflightMessage c msg).2
  | ack (c : jetStreamInflightMsgProcessorImpl) (a : AckIndication) :
      Reachable c → Reachable (ProcessMsgACK c a).2.1

/-- Every per-stream consumers map in the state holds exactly the tracker's
own consumer as its key. -/
def consumerInvariant (c : jetStreamInflightMsgProcessorImpl) : Prop :=
  ∀ s ps, lookupA c.inflightPerStream s = some ps →
    ∃ pc, ps = [(c.consumer, pc)]

/-- The `PubAck` signal delivered on the ack future's OK channel. -/
structure PubAck where
  sequence : Nat
  stream : String
deriving DecidableEq

/-- Which of the three select arms of `Publish` fires, and what it carries.
`okChan none` / `errChan none` model a receive from a closed channel
(Go's `ok == false`). -/
inductive PubAckOutcome where
  | okChan (sig : Option PubAck)
  | errChan (sig : Option GoError)
  | ctxDone (cancelErr : GoError)
deriving DecidableEq

/-- Environment of one `Publish` call: the outcome of the log-tag update,
of the `PublishAsync` issuance, and of the three-way select. -/
structure PublishEnv where
  updateLogTagsErr : Option GoError
  publishAsyncErr : Option GoError
  outcome : PubAckOutcome
deriving DecidableEq

/-- `jetStreamPublisherImpl.Publish`: updates log tags, issues the async
publish, then selects over the ack future's OK channel, its error channel,
and context cancellation. -/
def Publish (env : PublishEnv) : Option GoError :=
  match env.updateLogTagsErr with
  | some e => some e
  | none =>
    match env.publishAsyncErr with
    | some e => some e
    | none =>
      match env.outcome with
      | PubAckOutcome.okChan none => some "reading nats.PubAckFuture OK channel failure"
      | PubAckOutcome.okChan (some _) => none
      | PubAckOutcome.errChan none => some "reading nats.PubAckFuture error channel failure"
      | PubAckOutcome.errChan (some e) => some e
      | PubAckOutcome.ctxDone e => some e

/-- The claim's reading of the `Publish` contract: the reported result is
exactly one of — `nil` on a broker ack, the broker's nack error as-is on a
broker nack, or the context's cancellation error on cancellation. -/
def PublishThreeOutcomes (env : PublishEnv) : Prop :=
  (Publish env = none ∧ ∃ a, env.outcome = PubAckOutcome.okChan (some a)) ∨
  (∃ e, Publish env = some e ∧ env.outcome = PubAckOutcome.errChan (some e)) ∨
  (∃ e, Publish env = some e ∧ env.outcome = PubAckOutcome.ctxDone e)

/-- Observable calls made by the dispatcher's forward callback. -/
inductive DispatchEvent where
  | clientSink (msg : NatsMsg)
  | trackerRecord (msg : NatsMsg) (blocking : Bool)
deriving DecidableEq

/-- Environment of one forward-callback invocation: the result of the
client sink (`msgOutput`) and of the tracker record submission. -/
structure ForwardEnv where
  msgOutputErr : Option GoError
  recordErr : Option GoError
deriving DecidableEq

/-- The forward callback `pushMessageDispatcher.Start` hands to the push
subscriber: call the client sink first; if it succeeds, submit the message
to the tracker in non-blocking mode. Returns the trace of calls made and
the callback's result. -/
def forwardMessageCB (env : ForwardEnv) (msg : NatsMsg) :
    List DispatchEvent × Option GoError :=
  match env.msgOutputErr with
  | some e => ([DispatchEvent.clientSink msg], some e)
  | none =>
    match env.recordErr with
    | some e =>
      ([DispatchEvent.clientSink msg, DispatchEvent.trackerRecord msg false], some e)
    | none =>
      ([DispatchEvent.clientSink msg, DispatchEvent.trackerRecord msg false], none)

/-- Environment of one `pushMessageDispatcher.Start` call: the results of
starting the tracker task processor, the ACK receiver subscription, and the
push subscriber. -/
structure DispatcherStartEnv where
  tpStartErr : Option GoError
  ackSubErr : Option GoError
  subStartErr : Option GoError
deriving DecidableEq

/-- `pushMessageDispatcher.Start`: rejects a second start, then starts the
task processor, the ACK receiver, and the subscriber in order, returning on
the first failure; only full success flips `started`. Returns the call's
result and the new `started` flag. -/
def dispatcherStart (started : Bool) (env : DispatcherStartEnv) :
    Option GoError × Bool :=
  if started then (some "already started", started)
  else
    match env.tpStartErr with
    | some e => (some e, started)
    | none =>
      match env.ackSubErr with
      | some e => (some e, started)
      | none =>
        match env.subStartErr with
        | some e => (some e, started)
        | none => (none, true)

/-- Modelled from the spec: the IntervalTimer implementation file
(common/timer.go) is missing from the sources; only its unit test is
present. Per the spec, `start` cancels any prior schedule and spawns a
ticker that waits `period`, invokes the callback, stops if `fire_once`,
else repeats. The state of that discrete-time model: the current schedule
and the total number of callback invocations so far. -/
structure IntervalTimerState where
  period : Nat
  fireOnce : Bool
  sinceStart : Nat
  active : Bool
  fires : Nat
deriving DecidableEq

/-- Modelled from the spec: a fresh interval timer has no active schedule
and has fired no callback. -/
def timerInit : IntervalTimerState :=
  { period := 0, fireOnce := false, sinceStart := 0, active := false, fires := 0 }

/-- Parameters of one `IntervalTimer.Start` call. -/
structure TimerStartCmd where
  period : Nat
  fireOnce : Bool
deriving DecidableEq

/-- Modelled from the spec: `Start` cancels the prior schedule (whatever it
was) and installs the new one, counting time from zero. -/
def timerStart (s : IntervalTimerState) (cmd : TimerStartCmd) : IntervalTimerState :=
  { s with period := cmd.period, fireOnce := cmd.fireOnce, sinceStart := 0, active := true }

/-- Modelled from the spec: one unit of time passes. An active schedule
fires its callback at each multiple of `period`; a one-shot schedule
deactivates after its first fire. -/
def timerTick (s : IntervalTimerState) : IntervalTimerState :=
  if s.active then
    if 0 < s.period ∧ (s.sinceStart + 1) % s.period = 0 then
      { s with sinceStart := s.sinceStart + 1, fires := s.fires + 1, active := !s.fireOnce }
    else
      { s with sinceStart := s.sinceStart + 1 }
  else s

/-- Run `n` ticks with no intervening `Start`. -/
def runTicks (s : IntervalTimerState) : Nat → IntervalTimerState
  | 0 => s
  | n + 1 => timerTick (runTicks s n)

/-- The keys of an association list are pairwise distinct (always true of a
Go map; an artifact hypothesis of the list embedding). -/
def keysNodup {κ α : Type} [DecidableEq κ] (m : List (κ × α)) : Prop :=
  (m.map Prod.fst).Nodup

instance {κ α : Type} [DecidableEq κ] (m : List (κ × α)) : Decidable (keysNodup m) :=
  List.nodupDecidable (m.map Prod.fst)

/-- Well-formedness of a tracker state: every level of the nested inflight
map has pairwise-distinct keys, as Go maps do. -/
def TrackerWF (c : jetStreamInflightMsgProcessorImpl) : Prop :=
  keysNodup c.inflightPerStream ∧
  ∀ p ∈ c.inflightPerStream, keysNodup p.2 ∧ ∀ q ∈ p.2, keysNodup q.2

instance (c : jetStreamInflightMsgProcessorImpl) : Decidable (TrackerWF c) := by
  unfold TrackerWF
  infer_instance

theorem lookupA_insertA_self {κ α : Type} [DecidableEq κ]
    (m : List (κ × α)) (k : κ) (v : α) : lookupA (insertA m k v) k = some v := by
  induction m with
  | nil => simp [insertA, lookupA]
  | cons hd tl ih =>
    obtain ⟨k0, v0⟩ := hd
    by_cases h : k0 = k
    · simp [insertA, lookupA, h]
    · simp [insertA, lookupA, h, ih]

theorem lookupA_insertA_ne {κ α : Type} [DecidableEq κ]
    (m : List (κ × α)) (k k' : κ) (v : α) (h : k ≠ k') :
    lookupA (insertA m k v) k' = lookupA m k' := by
  induction m with
  | nil => simp [insertA, lookupA, h]
  | cons hd tl ih =>
    obtain ⟨k0, v0⟩ := hd
    by_cases h0 : k0 = k
    · subst h0
      simp [insertA, lookupA, h]
    · simp [insertA, lookupA, h0, ih]

theorem lookupA_eraseA_ne {κ α : Type} [DecidableEq κ]
    (m : List (κ × α)) (k k' : κ) (h : k ≠ k') :
    lookupA (eraseA m k) k' = lookupA m k' := by
  induction m with
  | nil => simp [eraseA]
  | cons hd tl ih =>
    obtain ⟨k0, v0⟩ := hd
    by_cases h0 : k0 = k
    · subst h0
      simp [eraseA, lookupA, h]
    · simp [eraseA, lookupA, h0, ih]

theorem lookupA_eq_none_of_not_mem_keys {κ α : Type} [DecidableEq κ]
    (m : List (κ × α)) (k : κ) (h : k ∉ m.map Prod.fst) : lookupA m k = none := by
  induction m with
  | nil => rfl
  | cons hd tl ih =>
    obtain ⟨k0, v0⟩ := hd
    simp only [List.map_cons, List.mem_cons, not_or] at h
    have h0 : k0 ≠ k := fun he => h.1 he.symm
    simp [lookupA, h0, ih h.2]

theorem lookupA_eraseA_self {κ α : Type} [DecidableEq κ]
    (m : List (κ × α)) (k : κ) (h : keysNodup m) :
    lookupA (eraseA m k) k = none := by
  induction m with
  | nil => simp [eraseA, lookupA]
  | cons hd tl ih =>
    obtain ⟨k0, v0⟩ := hd
    simp only [keysNodup, List.map_cons, List.nodup_cons] at h
    by_cases h0 : k0 = k
    · subst h0
      simp only [eraseA, if_pos rfl]
      exact lookupA_eq_none_of_not_mem_keys tl k0 h.1
    · simp only [eraseA, if_neg h0, lookupA, if_neg h0]
      exact ih h.2

theorem insertA_mem_cases {κ α : Type} [DecidableEq κ]
    (m : List (κ × α)) (k : κ) (v : α) (p : κ × α) (h : p ∈ insertA m k v) :
    p ∈ m ∨ p.1 = k := by
  induction m with
  | nil =>
    simp only [insertA, List.mem_singleton] at h
    subst h
    exact Or.inr rfl
  | cons hd tl ih =>
    obtain ⟨k0, v0⟩ := hd
    by_cases h0 : k0 = k
    · simp only [insertA, if_pos h0, List.mem_cons] at h
      rcases h with h | h
      · subst h
        exact Or.inr rfl
      · exact Or.inl (List.mem_cons_of_mem _ h)
    · simp only [insertA, if_neg h0, List.mem_cons] at h
      rcases h with h | h
      · exact Or.inl (h ▸ List.mem_cons_self _ _)
      · rcases ih h with h1 | h1
        · exact Or.inl (List.mem_cons_of_mem _ h1)
        · exact Or.inr h1

theorem keysNodup_insertA {κ α : Type} [DecidableEq κ]
    (m : List (κ × α)) (k : κ) (v : α) (h : keysNodup m) :
    keysNodup (insertA m k v) := by
  induction m with
  | nil => simp [insertA, keysNodup]
  | cons hd tl ih =>
    obtain ⟨k0, v0⟩ := hd
    simp only [keysNodup, List.map_cons, List.nodup_cons] at h
    by_cases h0 : k0 = k
    · subst h0
      simpa [insertA, keysNodup] using h
    · have htl := ih h.2
      simp only [insertA, if_neg h0, keysNodup, List.map_cons, List.nodup_cons]
      refine ⟨?_, htl⟩
      intro hmem
      rcases List.mem_map.mp hmem with ⟨⟨k1, v1⟩, hk1, hfst⟩
      rcases insertA_mem_cases tl k v ⟨k1, v1⟩ hk1 with hcase | hcase
      · exact h.1 (List.mem_map.mpr ⟨⟨k1, v1⟩, hcase, hfst⟩)
      · exact h0 (hfst.symm.trans hcase)

theorem insertA_insertA {κ α : Type} [DecidableEq κ]
    (m : List (κ × α)) (k : κ) (v w : α) :
    insertA (insertA m k v) k w = insertA m k w := by
  induction m with
  | nil => simp [insertA]
  | cons hd tl ih =>
    obtain ⟨k0, v0⟩ := hd
    by_cases h0 : k0 = k
    · simp [insertA, h0]
    · simp [insertA, h0, ih]

theorem lookupA_mem {κ α : Type} [DecidableEq κ]
    (m : List (κ × α)) (k : κ) (v : α) (h : lookupA m k = some v) : (k, v) ∈ m := by
  induction m with
  | nil => simp [lookupA] at h
  | cons hd tl ih =>
    obtain ⟨k0, v0⟩ := hd
    by_cases h0 : k0 = k
    · subst h0
      simp [lookupA] at h
      subst h
      exact List.mem_cons_self _ _
    · simp only [lookupA, if_neg h0] at h
      exact List.mem_cons_of_mem _ (ih h)

theorem tracker_inner_nodup (c : jetStreamInflightMsgProcessorImpl)
    (hwf : TrackerWF c) (s q : String) :
    keysNodup ((lookupA ((lookupA c.inflightPerStream s).getD []) q).getD []) := by
  cases h1 : lookupA c.inflightPerStream s with
  | none => simp [lookupA, keysNodup]
  | some ps =>
    cases h2 : lookupA ps q with
    | none => simp [h2, keysNodup]
    | some pc =>
      have hm1 := lookupA_mem _ _ _ h1
      have hm2 := lookupA_mem _ _ _ h2
      simpa [h2] using (hwf.2 _ hm1).2 _ hm2

theorem lookupInflight_destruct (c : jetStreamInflightMsgProcessorImpl)
    (stream consumer : String) (seq : Nat) (msg : NatsMsg)
    (h : lookupInflight c stream consumer seq = some msg) :
    ∃ ps pc, lookupA c.inflightPerStream stream = some ps ∧
      lookupA ps consumer = some pc ∧ lookupA pc seq = some msg := by
  cases h1 : lookupA c.inflightPerStream stream with
  | none => simp [lookupInflight, h1] at h
  | some ps =>
    cases h2 : lookupA ps consumer with
    | none => simp [lookupInflight, h1, h2] at h
    | some pc =>
      refine ⟨ps, pc, rfl, h2, ?_⟩
      simpa [lookupInflight, h1, h2] using h

theorem ProcessInflightMessage_ok (c : jetStreamInflightMsgProcessorImpl)
    (msg : NatsMsg) (meta : MsgMeta)
    (hm : msg.metadata = MetaResult.ok meta) (hc : c.consumer = meta.consumer) :
    ProcessInflightMessage c msg =
      (none,
       { c with inflightPerStream := (
          insertA c.inflightPerStream meta.stream
            (insertA ((lookupA c.inflightPerStream meta.stream).getD []) c.consumer
              (insertA
                ((lookupA ((lookupA c.inflightPerStream meta.stream).getD [])
                   c.consumer).getD [])
                meta.seqStream msg))) }) := by
  simp [ProcessInflightMessage, hm, hc]

theorem ProcessMsgACK_found_ok (c : jetStreamInflightMsgProcessorImpl)
    (a : AckIndication) (msg : NatsMsg)
    (ps : perStreamInflightMessages) (pc : perConsumerInflightMessages)
    (h1 : lookupA c.inflightPerStream a.stream = some ps)
    (h2 : lookupA ps a.consumer = some pc)
    (h3 : lookupA pc a.seqNum.stream = some msg)
    (hack : msg.ackSyncErr = none) :
    ProcessMsgACK c a =
      (none,
       { c with inflightPerStream := (
          insertA c.inflightPerStream a.stream
            (insertA ps a.consumer (eraseA pc a.seqNum.stream))) },
       [msg]) := by
  simp [ProcessMsgACK, h1, h2, h3, hack]

theorem ProcessMsgACK_found_err (c : jetStreamInflightMsgProcessorImpl)
    (a : AckIndication) (msg : NatsMsg) (e : GoError)
    (ps : perStreamInflightMessages) (pc : perConsumerInflightMessages)
    (h1 : lookupA c.inflightPerStream a.stream = some ps)
    (h2 : lookupA ps a.consumer = some pc)
    (h3 : lookupA pc a.seqNum.stream = some msg)
    (hack : msg.ackSyncErr = some e) :
    ProcessMsgACK c a = (some e, c, [msg]) := by
  simp [ProcessMsgACK, h1, h2, h3, hack]

/-- C1: if `ProcessInflightMessage` accepts a message and `ProcessMsgACK`
then processes an ack with matching (stream, consumer, stream-sequence)
key and the broker ack-sync succeeds, then afterwards the inflight map has
no entry for that key and `AckSync` was called exactly once, on that
message. -/
theorem record_then_ack_clears_inflight
    (c c' : jetStreamInflightMsgProcessorImpl) (msg : NatsMsg) (meta : MsgMeta)
    (a : AckIndication)
    (hwf : TrackerWF c)
    (hm : msg.metadata = MetaResult.ok meta)
    (hrec : ProcessInflightMessage c msg = (none, c'))
    (hs : a.stream = meta.stream) (hc : a.consumer = meta.consumer)
    (hq : a.seqNum.stream = meta.seqStream)
    (hack : msg.ackSyncErr = none) :
    (ProcessMsgACK c' a).1 = none ∧
    (ProcessMsgACK c' a).2.2 = [msg] ∧
    lookupInflight (ProcessMsgACK c' a).2.1 a.stream a.consumer a.seqNum.stream = none := by
  have hcons : c.consumer = meta.consumer := by
    by_contra hne
    simp [ProcessInflightMessage, hm, hne] at hrec
  have hchar := ProcessInflightMessage_ok c msg meta hm hcons
  rw [hchar] at hrec
  simp only [Prod.mk.injEq, true_and] at hrec
  subst hrec
  have hnodup : keysNodup
      ((lookupA ((lookupA c.inflightPerStream meta.stream).getD [])
        c.consumer).getD []) :=
    tracker_inner_nodup c hwf meta.stream c.consumer
  have h1' := lookupA_insertA_self c.inflightPerStream meta.stream
    (insertA ((lookupA c.inflightPerStream meta.stream).getD []) c.consumer
      (insertA
        ((lookupA ((lookupA c.inflightPerStream meta.stream).getD []) c.consumer).getD [])
        meta.seqStream msg))
  have h2' := lookupA_insertA_self
    ((lookupA c.inflightPerStream meta.stream).getD []) c.consumer
    (insertA
      ((lookupA ((lookupA c.inflightPerStream meta.stream).getD []) c.consumer).getD [])
      meta.seqStream msg)
  have h3' := lookupA_insertA_self
    ((lookupA ((lookupA c.inflightPerStream meta.stream).getD []) c.consumer).getD [])
    meta.seqStream msg
  have hAck := ProcessMsgACK_found_ok
    { c with inflightPerStream := (
        insertA c.inflightPerStream meta.stream
          (insertA ((lookupA c.inflightPerStream meta.stream).getD []) c.consumer
            (insertA
              ((lookupA ((lookupA c.inflightPerStream meta.stream).getD [])
                 c.consumer).getD [])
              meta.seqStream msg))) }
    a msg _ _
    (by simpa [hs] using h1') (by simpa [hc, ← hcons] using h2')
    (by simpa [hq] using h3') hack
  rw [hAck]
  refine ⟨rfl, rfl, ?_⟩
  have hin := lookupA_insertA_self
    (insertA c.inflightPerStream meta.stream
      (insertA ((lookupA c.inflightPerStream meta.stream).getD []) c.consumer
        (insertA
          ((lookupA ((lookupA c.inflightPerStream meta.stream).getD []) c.consumer).getD [])
          meta.seqStream msg)))
    a.stream
    (insertA
      (insertA ((lookupA c.inflightPerStream meta.stream).getD []) c.consumer
        (insertA
          ((lookupA ((lookupA c.inflightPerStream meta.stream).getD []) c.consumer).getD [])
          meta.seqStream msg))
      a.consumer
      (eraseA
        (insertA
          ((lookupA ((lookupA c.inflightPerStream meta.stream).getD []) c.consumer).getD [])
          meta.seqStream msg)
        a.seqNum.stream))
  have hin2 := lookupA_insertA_self
    (insertA ((lookupA c.inflightPerStream meta.stream).getD []) c.consumer
      (insertA
        ((lookupA ((lookupA c.inflightPerStream meta.stream).getD []) c.consumer).getD [])
        meta.seqStream msg))
    a.consumer
    (eraseA
      (insertA
        ((lookupA ((lookupA c.inflightPerStream meta.stream).getD []) c.consumer).getD [])
        meta.seqStream msg)
      a.seqNum.stream)
  simp only [lookupInflight, hin, hin2]
  rw [hq]
  have hnodup1 : keysNodup
      (insertA
        ((lookupA ((lookupA c.inflightPerStream meta.stream).getD []) c.consumer).getD [])
        meta.seqStream msg) :=
    keysNodup_insertA _ _ _ hnodup
  exact lookupA_eraseA_self _ _ hnodup1

/-- C1 witness: a concrete record-then-ack run on a fresh tracker for
consumer C on stream S at stream sequence 42. -/
theorem record_then_ack_clears_inflight_witness :
    (ProcessMsgACK
        (ProcessInflightMessage (initialTracker "subj" "C")
          { payload := "p"
            metadata := MetaResult.ok
              { stream := "S", consumer := "C", seqStream := 42, seqConsumer := 7 }
            ackSyncErr := none }).2
        { stream := "S", consumer := "C", seqNum := { stream := 42, consumer := 7 } }).1
      = none := by
  have h := record_then_ack_clears_inflight
    (initialTracker "subj" "C")
    (ProcessInflightMessage (initialTracker "subj" "C")
      { payload := "p"
        metadata := MetaResult.ok
          { stream := "S", consumer := "C", seqStream := 42, seqConsumer := 7 }
        ackSyncErr := none }).2
    { payload := "p"
      metadata := MetaResult.ok
        { stream := "S", consumer := "C", seqStream := 42, seqConsumer := 7 }
      ackSyncErr := none }
    { stream := "S", consumer := "C", seqStream := 42, seqConsumer := 7 }
    { stream := "S", consumer := "C", seqNum := { stream := 42, consumer := 7 } }
    (by decide) rfl (by decide) rfl rfl rfl rfl
  exact h.1

/-- C2: an ack with no prior matching record returns an absence error and
leaves the inflight map unchanged (and calls no `AckSync`); when the stream
and consumer levels exist but the stream sequence does not, the error is
the `no records related message` one. -/
theorem ack_without_record_errors (c : jetStreamInflightMsgProcessorImpl)
    (a : AckIndication)
    (h : lookupInflight c a.stream a.consumer a.seqNum.stream = none) :
    (∃ e, (ProcessMsgACK c a).1 = some e) ∧
    (ProcessMsgACK c a).2.1 = c ∧ (ProcessMsgACK c a).2.2 = [] ∧
    (∀ ps pc, lookupA c.inflightPerStream a.stream = some ps →
       lookupA ps a.consumer = some pc →
       (ProcessMsgACK c a).1 =
         some ("no records related message [" ++ toString a.seqNum.stream ++ "] for "
               ++ a.consumer ++ "@" ++ a.stream)) := by
  cases h1 : lookupA c.inflightPerStream a.stream with
  | none =>
    refine ⟨⟨"no records related to stream " ++ a.stream, by simp [ProcessMsgACK, h1]⟩,
      by simp [ProcessMsgACK, h1], by simp [ProcessMsgACK, h1], ?_⟩
    intro ps pc hps _hpc
    simp at hps
  | some ps =>
    cases h2 : lookupA ps a.consumer with
    | none =>
      refine ⟨⟨"no records related to consumer " ++ a.consumer ++ " on stream " ++ a.stream,
        by simp [ProcessMsgACK, h1, h2]⟩, by simp [ProcessMsgACK, h1, h2],
        by simp [ProcessMsgACK, h1, h2], ?_⟩
      intro ps' pc' hps' hpc'
      rw [Option.some_inj] at hps'
      subst hps'
      rw [h2] at hpc'
      simp at hpc'
    | some pc =>
      have h3 : lookupA pc a.seqNum.stream = none := by
        simpa [lookupInflight, h1, h2] using h
      refine ⟨⟨"no records related message [" ++ toString a.seqNum.stream ++ "] for "
          ++ a.consumer ++ "@" ++ a.stream, by simp [ProcessMsgACK, h1, h2, h3]⟩,
        by simp [ProcessMsgACK, h1, h2, h3], by simp [ProcessMsgACK, h1, h2, h3], ?_⟩
      intro ps' pc' _hps' _hpc'
      simp [ProcessMsgACK, h1, h2, h3]

/-- C2 witness: with stream S and consumer C present but sequence 99
unrecorded, the ack yields exactly `no records related message [99] for
C@S` and leaves the state untouched. -/
theorem ack_without_record_errors_witness :
    (ProcessMsgACK
      { subject := "subj", consumer := "C", inflightPerStream := [("S", [("C", [])])] }
      { stream := "S", consumer := "C", seqNum := { stream := 99, consumer := 1 } }).1 =
      some "no records related message [99] for C@S" ∧
    (ProcessMsgACK
      { subject := "subj", consumer := "C", inflightPerStream := [("S", [("C", [])])] }
      { stream := "S", consumer := "C", seqNum := { stream := 99, consumer := 1 } }).2.1 =
      { subject := "subj", consumer := "C", inflightPerStream := [("S", [("C", [])])] } := by
  have h := ack_without_record_errors
    { subject := "subj", consumer := "C", inflightPerStream := [("S", [("C", [])])] }
    { stream := "S", consumer := "C", seqNum := { stream := 99, consumer := 1 } }
    rfl
  refine ⟨?_, h.2.1⟩
  have h4 := h.2.2.2 [("C", [])] [] rfl rfl
  exact h4.trans (by decide)

/-- C3: recording a message whose metadata names a different consumer
fails with the `message expected for ...` error and leaves the map
untouched; recording also fails, with the metadata error itself, when the
metadata is unobtainable. -/
theorem record_consumer_mismatch_errors (c : jetStreamInflightMsgProcessorImpl)
    (msg : NatsMsg) :
    (∀ meta, msg.metadata = MetaResult.ok meta → c.consumer ≠ meta.consumer →
       ProcessInflightMessage c msg =
         (some ("message expected for " ++ c.consumer ++ ", but meta says "
                ++ meta.consumer), c)) ∧
    (∀ e, msg.metadata = MetaResult.err e →
       ProcessInflightMessage c msg = (some e, c)) := by
  constructor
  · intro meta hm hne
    simp [ProcessInflightMessage, hm, hne]
  · intro e hm
    simp [ProcessInflightMessage, hm]

/-- C3 witness: a tracker bound to consumer Y rejects a message whose
metadata says X with exactly `message expected for Y, but meta says X`. -/
theorem record_consumer_mismatch_errors_witness :
    ProcessInflightMessage (initialTracker "subj" "Y")
      { payload := "p"
        metadata := MetaResult.ok
          { stream := "S", consumer := "X", seqStream := 1, seqConsumer := 1 }
        ackSyncErr := none } =
      (some "message expected for Y, but meta says X", initialTracker "subj" "Y") := by
  have h := (record_consumer_mismatch_errors (initialTracker "subj" "Y")
    { payload := "p"
      metadata := MetaResult.ok
        { stream := "S", consumer := "X", seqStream := 1, seqConsumer := 1 }
      ackSyncErr := none }).1
    { stream := "S", consumer := "X", seqStream := 1, seqConsumer := 1 }
    rfl (by decide)
  exact h.trans (by decide)

/-- C4: when the ack's target message is present, the entry is removed
precisely when the broker ack-sync succeeds; a failing `AckSync` makes the
call return that error with the state fully unchanged. -/
theorem ack_removal_iff_acksync_success (c : jetStreamInflightMsgProcessorImpl)
    (a : AckIndication) (msg : NatsMsg)
    (hwf : TrackerWF c)
    (h : lookupInflight c a.stream a.consumer a.seqNum.stream = some msg) :
    (msg.ackSyncErr = none →
       (ProcessMsgACK c a).1 = none ∧
       (ProcessMsgACK c a).2.2 = [msg] ∧
       lookupInflight (ProcessMsgACK c a).2.1 a.stream a.consumer a.seqNum.stream = none) ∧
    (∀ e, msg.ackSyncErr = some e → ProcessMsgACK c a = (some e, c, [msg])) := by
  obtain ⟨ps, pc, h1, h2, h3⟩ := lookupInflight_destruct _ _ _ _ _ h
  constructor
  · intro hack
    have hAck := ProcessMsgACK_found_ok c a msg ps pc h1 h2 h3 hack
    rw [hAck]
    refine ⟨rfl, rfl, ?_⟩
    have hnodup : keysNodup pc := by
      have hm1 := lookupA_mem _ _ _ h1
      have hm2 := lookupA_mem _ _ _ h2
      simpa using (hwf.2 _ hm1).2 _ hm2
    have hi1 := lookupA_insertA_self c.inflightPerStream a.stream
      (insertA ps a.consumer (eraseA pc a.seqNum.stream))
    have hi2 := lookupA_insertA_self ps a.consumer (eraseA pc a.seqNum.stream)
    simp only [lookupInflight, hi1, hi2]
    exact lookupA_eraseA_self _ _ hnodup
  · intro e hack
    exact ProcessMsgACK_found_err c a msg e ps pc h1 h2 h3 hack

/-- C4 witness: a present entry for (S, C, 42) whose ack-sync succeeds is
acked with a nil result and disappears from the map. -/
theorem ack_removal_iff_acksync_success_witness :
    (ProcessMsgACK
      { subject := "subj", consumer := "C",
        inflightPerStream :=
          [("S", [("C", [(42, { payload := "p"
                                metadata := MetaResult.ok
                                  { stream := "S", consumer := "C",
                                    seqStream := 42, seqConsumer := 7 }
                                ackSyncErr := none })])])] }
      { stream := "S", consumer := "C", seqNum := { stream := 42, consumer := 7 } }).1 =
      none ∧
    lookupInflight
      (ProcessMsgACK
        { subject := "subj", consumer := "C",
          inflightPerStream :=
            [("S", [("C", [(42, { payload := "p"
                                  metadata := MetaResult.ok
                                    { stream := "S", consumer := "C",
                                      seqStream := 42, seqConsumer := 7 }
                                  ackSyncErr := none })])])] }
        { stream := "S", consumer := "C", seqNum := { stream := 42, consumer := 7 } }).2.1
      "S" "C" 42 = none := by
  have h := ack_removal_iff_acksync_success
    { subject := "subj", consumer := "C",
      inflightPerStream :=
        [("S", [("C", [(42, { payload := "p"
                              metadata := MetaResult.ok
                                { stream := "S", consumer := "C",
                                  seqStream := 42, seqConsumer := 7 }
                              ackSyncErr := none })])])] }
    { stream := "S", consumer := "C", seqNum := { stream := 42, consumer := 7 } }
    { payload := "p"
      metadata := MetaResult.ok
        { stream := "S", consumer := "C", seqStream := 42, seqConsumer := 7 }
      ackSyncErr := none }
    (by decide) rfl
  have h1 := h.1 rfl
  exact ⟨h1.1, h1.2.2⟩

/-- C7: recording two messages with the same (stream, consumer,
stream-sequence) key in sequence leaves the tracker in the same state as
recording only the second: the duplicate insert overwrites. -/
theorem duplicate_record_overwrites (c : jetStreamInflightMsgProcessorImpl)
    (m1 m2 : NatsMsg) (meta1 meta2 : MsgMeta)
    (h1 : m1.metadata = MetaResult.ok meta1) (h2 : m2.metadata = MetaResult.ok meta2)
    (hc1 : c.consumer = meta1.consumer) (hc2 : c.consumer = meta2.consumer)
    (hs : meta1.stream = meta2.stream) (hq : meta1.seqStream = meta2.seqStream) :
    (ProcessInflightMessage (ProcessInflightMessage c m1).2 m2).2 =
      (ProcessInflightMessage c m2).2 := by
  obtain ⟨st1, cs1, sq1, sqc1⟩ := meta1
  obtain ⟨st2, cs2, sq2, sqc2⟩ := meta2
  dsimp only at hc1 hc2 hs hq
  subst hs
  subst hq
  have hcs : cs1 = cs2 := hc1.symm.trans hc2
  subst hcs
  simp only [ProcessInflightMessage, h1, h2, ← hc1, ne_eq, not_true_eq_false, if_false]
  simp [← hc1, lookupA_insertA_self, insertA_insertA]

/-- C7 witness: two concrete messages for (S, C, 42) with different
payloads; the second recording alone determines the final state. -/
theorem duplicate_record_overwrites_witness :
    (ProcessInflightMessage
        (ProcessInflightMessage (initialTracker "subj" "C")
          { payload := "first"
            metadata := MetaResult.ok
              { stream := "S", consumer := "C", seqStream := 42, seqConsumer := 7 }
            ackSyncErr := none }).2
        { payload := "second"
          metadata := MetaResult.ok
            { stream := "S", consumer := "C", seqStream := 42, seqConsumer := 8 }
          ackSyncErr := none }).2 =
      (ProcessInflightMessage (initialTracker "subj" "C")
        { payload := "second"
          metadata := MetaResult.ok
            { stream := "S", consumer := "C", seqStream := 42, seqConsumer := 8 }
          ackSyncErr := none }).2 :=
  duplicate_record_overwrites (initialTracker "subj" "C")
    { payload := "first"
      metadata := MetaResult.ok
        { stream := "S", consumer := "C", seqStream := 42, seqConsumer := 7 }
      ackSyncErr := none }
    { payload := "second"
      metadata := MetaResult.ok
        { stream := "S", consumer := "C", seqStream := 42, seqConsumer := 8 }
      ackSyncErr := none }
    { stream := "S", consumer := "C", seqStream := 42, seqConsumer := 7 }
    { stream := "S", consumer := "C", seqStream := 42, seqConsumer := 8 }
    rfl rfl rfl rfl rfl rfl

/-- C5 counterexample: a call in which the async publish issuance itself
fails reports that error, which is none of the three claimed outcomes
(broker ack, broker nack, context cancellation). -/
theorem publish_three_outcomes_counterexample :
    ¬ PublishThreeOutcomes
        { updateLogTagsErr := none,
          publishAsyncErr := some "nats: connection closed",
          outcome := PubAckOutcome.okChan (some { sequence := 1, stream := "S" }) } := by
  intro h
  rcases h with ⟨h1, -⟩ | ⟨e, -, h2⟩ | ⟨e, -, h2⟩
  · exact absurd h1 (by decide)
  · exact absurd h2 (by simp)
  · exact absurd h2 (by simp)

/-- C5 amended: when the log-tag update and the async publish issuance
succeed and the selected channel delivers an actual value (is not closed),
exactly one of the three outcomes is reported: nil on broker ack, the
broker's nack error as-is, or the context's cancellation error. -/
theorem publish_three_outcomes_amended (env : PublishEnv)
    (hlt : env.updateLogTagsErr = none) (hpa : env.publishAsyncErr = none)
    (hok : env.outcome ≠ PubAckOutcome.okChan none)
    (herr : env.outcome ≠ PubAckOutcome.errChan none) :
    PublishThreeOutcomes env := by
  obtain ⟨lt, pa, outc⟩ := env
  dsimp only at hlt hpa hok herr
  subst hlt
  subst hpa
  cases outc with
  | okChan sig =>
    cases sig with
    | none => exact absurd rfl hok
    | some a => exact Or.inl ⟨by simp [Publish], ⟨a, rfl⟩⟩
  | errChan sig =>
    cases sig with
    | none => exact absurd rfl herr
    | some e => exact Or.inr (Or.inl ⟨e, by simp [Publish], rfl⟩)
  | ctxDone e => exact Or.inr (Or.inr ⟨e, by simp [Publish], rfl⟩)

/-- C5 witness: a cancelled context reports exactly the cancellation
error. -/
theorem publish_three_outcomes_amended_witness :
    PublishThreeOutcomes
      { updateLogTagsErr := none, publishAsyncErr := none,
        outcome := PubAckOutcome.ctxDone "context canceled" } :=
  publish_three_outcomes_amended
    { updateLogTagsErr := none, publishAsyncErr := none,
      outcome := PubAckOutcome.ctxDone "context canceled" }
    rfl rfl (by simp) (by simp)

/-- C6: the dispatcher's forward callback calls the client sink first,
submits the tracker record in non-blocking mode only, and the client-sink
call is in the trace for every environment, including those where the
record submission fails. -/
theorem client_sink_before_record (env : ForwardEnv) (msg : NatsMsg) :
    (forwardMessageCB env msg).1.head? = some (DispatchEvent.clientSink msg) ∧
    (∀ m b, DispatchEvent.trackerRecord m b ∈ (forwardMessageCB env msg).1 → b = false) ∧
    DispatchEvent.clientSink msg ∈ (forwardMessageCB env msg).1 := by
  obtain ⟨mo, re⟩ := env
  cases mo with
  | some e =>
    refine ⟨rfl, ?_, ?_⟩ <;> simp [forwardMessageCB]
  | none =>
    cases re with
    | some e =>
      refine ⟨rfl, ?_, ?_⟩ <;> simp [forwardMessageCB]
    | none =>
      refine ⟨rfl, ?_, ?_⟩ <;> simp [forwardMessageCB]

/-- C6 witness: with a failing record submission, the client sink call is
still first in the trace and still present. -/
theorem client_sink_before_record_witness :
    (forwardMessageCB { msgOutputErr := none, recordErr := some "submit failed" }
        { payload := "p", metadata := MetaResult.err "na", ackSyncErr := none }).1.head? =
      some (DispatchEvent.clientSink
        { payload := "p", metadata := MetaResult.err "na", ackSyncErr := none }) ∧
    DispatchEvent.clientSink
        { payload := "p", metadata := MetaResult.err "na", ackSyncErr := none } ∈
      (forwardMessageCB { msgOutputErr := none, recordErr := some "submit failed" }
        { payload := "p", metadata := MetaResult.err "na", ackSyncErr := none }).1 := by
  have h := client_sink_before_record
    { msgOutputErr := none, recordErr := some "submit failed" }
    { payload := "p", metadata := MetaResult.err "na", ackSyncErr := none }
  exact ⟨h.1, h.2.2⟩

/-- C10: from a not-started dispatcher, Start succeeds exactly when it
flips the started flag; any failure leaves the flag false, so a retry is
processed like a fresh Start and is never rejected as already started. -/
theorem failed_start_leaves_not_started (env env2 : DispatcherStartEnv) :
    ((dispatcherStart false env).1 = none ↔ (dispatcherStart false env).2 = true) ∧
    ((∃ e, (dispatcherStart false env).1 = some e) →
       (dispatcherStart false env).2 = false ∧
       dispatcherStart (dispatcherStart false env).2 env2 = dispatcherStart false env2) := by
  obtain ⟨t, a, s⟩ := env
  cases t <;> cases a <;> cases s <;> simp [dispatcherStart]

/-- C10 witness: a Start whose task processor fails leaves started=false
and a second Start behaves like a fresh one. -/
theorem failed_start_leaves_not_started_witness :
    (dispatcherStart false
      { tpStartErr := some "tp failed", ackSubErr := none, subStartErr := none }).2 = false ∧
    dispatcherStart
      (dispatcherStart false
        { tpStartErr := some "tp failed", ackSubErr := none, subStartErr := none }).2
      { tpStartErr := none, ackSubErr := none, subStartErr := none } =
      dispatcherStart false
        { tpStartErr := none, ackSubErr := none, subStartErr := none } :=
  (failed_start_leaves_not_started
    { tpStartErr := some "tp failed", ackSubErr := none, subStartErr := none }
    { tpStartErr := none, ackSubErr := none, subStartErr := none }).2
    ⟨"tp failed", rfl⟩

theorem runTicks_timerStart_closed (s : IntervalTimerState) (cmd : TimerStartCmd)
    (n : Nat) (hf : cmd.fireOnce = true) (hp : 0 < cmd.period) :
    runTicks (timerStart s cmd) n =
      if n < cmd.period then
        { period := cmd.period, fireOnce := true, sinceStart := n,
          active := true, fires := s.fires }
      else
        { period := cmd.period, fireOnce := true, sinceStart := cmd.period,
          active := false, fires := s.fires + 1 } := by
  induction n with
  | zero =>
    rw [if_pos hp]
    simp [runTicks, timerStart, hf]
  | succ n ih =>
    rw [runTicks, ih]
    by_cases h1 : n + 1 < cmd.period
    · have h0 : n < cmd.period := Nat.lt_of_succ_lt h1
      rw [if_pos h0, if_pos h1]
      have hmod : ¬ ((n + 1) % cmd.period = 0) := by
        rw [Nat.mod_eq_of_lt h1]
        exact Nat.succ_ne_zero n
      simp [timerTick, hmod]
    · by_cases h0 : n < cmd.period
      · have heq : cmd.period = n + 1 :=
          Nat.le_antisymm (Nat.not_lt.mp h1) (Nat.succ_le_of_lt h0)
        rw [if_pos h0, if_neg h1]
        have hmod : (n + 1) % cmd.period = 0 := by
          rw [heq]
          exact Nat.mod_self _
        simp [timerTick, hmod, hp, heq]
      · rw [if_neg h0, if_neg h1]
        simp [timerTick]

/-- C8 (modelled from the spec; the timer implementation is not among the
sources): a `Start` with `fire_once` fires the callback exactly once per
start — once `period` has elapsed the invocation count has grown by one
and never grows again — and the behaviour is independent of whatever
schedule was previously installed (the new start cancels it). -/
theorem interval_timer_one_shot (s : IntervalTimerState) (cmd : TimerStartCmd)
    (n : Nat) (hf : cmd.fireOnce = true) (hp : 0 < cmd.period) :
    (runTicks (timerStart s cmd) n).fires =
      s.fires + (if cmd.period ≤ n then 1 else 0) := by
  rw [runTicks_timerStart_closed s cmd n hf hp]
  by_cases h : n < cmd.period
  · rw [if_pos h, if_neg (Nat.not_le.mpr h)]
    simp
  · rw [if_neg h, if_pos (Nat.not_lt.mp h)]

/-- C8 witness: the unit-test scenario — start(10 ms, one-shot): one fire
by 12 ms, still one by 22 ms; a fresh start(5 ms, one-shot) adds exactly
one more fire by 6 ms. -/
theorem interval_timer_one_shot_witness :
    (runTicks (timerStart timerInit { period := 10, fireOnce := true }) 12).fires = 1 ∧
    (runTicks (timerStart timerInit { period := 10, fireOnce := true }) 22).fires = 1 ∧
    (runTicks
      (timerStart (runTicks (timerStart timerInit { period := 10, fireOnce := true }) 22)
        { period := 5, fireOnce := true }) 6).fires = 2 := by
  refine ⟨?_, ?_, ?_⟩
  · rw [interval_timer_one_shot timerInit { period := 10, fireOnce := true } 12 rfl
      (by decide)]
    decide
  · rw [interval_timer_one_shot timerInit { period := 10, fireOnce := true } 22 rfl
      (by decide)]
    decide
  · rw [interval_timer_one_shot
      (runTicks (timerStart timerInit { period := 10, fireOnce := true }) 22)
      { period := 5, fireOnce := true } 6 rfl (by decide)]
    decide

theorem consumerInvariant_record (c : jetStreamInflightMsgProcessorImpl)
    (msg : NatsMsg) (hInv : consumerInvariant c) :
    consumerInvariant (ProcessInflightMessage c msg).2 := by
  cases hm : msg.metadata with
  | err e => simpa [ProcessInflightMessage, hm] using hInv
  | ok meta =>
    by_cases hne : c.consumer ≠ meta.consumer
    · simpa [ProcessInflightMessage, hm, hne] using hInv
    · push_neg at hne
      rw [ProcessInflightMessage_ok c msg meta hm hne]
      intro s ps hps
      dsimp only at hps ⊢
      by_cases hss : meta.stream = s
      · subst hss
        rw [lookupA_insertA_self] at hps
        rw [Option.some_inj] at hps
        subst hps
        cases h0 : lookupA c.inflightPerStream meta.stream with
        | none =>
          refine ⟨insertA [] meta.seqStream msg, ?_⟩
          simp [h0, insertA, lookupA]
        | some ps0 =>
          obtain ⟨pc0, hps0⟩ := hInv meta.stream ps0 h0
          subst hps0
          refine ⟨insertA pc0 meta.seqStream msg, ?_⟩
          simp [h0, insertA, lookupA]
      · rw [lookupA_insertA_ne _ _ _ _ hss] at hps
        exact hInv s ps hps

theorem consumerInvariant_ack (c : jetStreamInflightMsgProcessorImpl)
    (a : AckIndication) (hInv : consumerInvariant c) :
    consumerInvariant (ProcessMsgACK c a).2.1 := by
  cases h1 : lookupA c.inflightPerStream a.stream with
  | none => simpa [ProcessMsgACK, h1] using hInv
  | some ps =>
    cases h2 : lookupA ps a.consumer with
    | none => simpa [ProcessMsgACK, h1, h2] using hInv
    | some pc =>
      cases h3 : lookupA pc a.seqNum.stream with
      | none => simpa [ProcessMsgACK, h1, h2, h3] using hInv
      | some msg =>
        cases hack : msg.ackSyncErr with
        | some e => simpa [ProcessMsgACK, h1, h2, h3, hack] using hInv
        | none =>
          rw [ProcessMsgACK_found_ok c a msg ps pc h1 h2 h3 hack]
          intro s ps' hps'
          dsimp only at hps' ⊢
          obtain ⟨pc1, hps_eq⟩ := hInv a.stream ps h1
          subst hps_eq
          have hac : c.consumer = a.consumer ∧ pc1 = pc := by
            by_cases he : c.consumer = a.consumer
            · refine ⟨he, ?_⟩
              have := h2
              rw [lookupA, if_pos he] at this
              exact (Option.some_inj.mp this)
            · rw [lookupA, if_neg he] at h2
              simp [lookupA] at h2
          obtain ⟨hac1, hac2⟩ := hac
          subst hac2
          by_cases hss : a.stream = s
          · subst hss
            rw [lookupA_insertA_self] at hps'
            rw [Option.some_inj] at hps'
            subst hps'
            refine ⟨eraseA pc1 a.seqNum.stream, ?_⟩
            simp [insertA, hac1]
          · rw [lookupA_insertA_ne _ _ _ _ hss] at hps'
            exact hInv s ps' hps'

theorem consumerInvariant_reachable (c : jetStreamInflightMsgProcessorImpl)
    (h : Reachable c) : consumerInvariant c := by
  induction h with
  | init subject consumer =>
    intro s ps hps
    simp [initialTracker, lookupA] at hps
  | record c msg _ ih => exact consumerInvariant_record c msg ih
  | ack c a _ ih => exact consumerInvariant_ack c a ih

/-- C9: in every reachable tracker state, each per-stream consumers map
holds exactly one key, the tracker's own consumer; hence an ack naming a
different consumer for a known stream returns the `no records related to
consumer` error and leaves the state untouched, calling no `AckSync`. -/
theorem inflight_consumer_invariant (c : jetStreamInflightMsgProcessorImpl)
    (h : Reachable c) :
    consumerInvariant c ∧
    (∀ a : AckIndication, ∀ ps, lookupA c.inflightPerStream a.stream = some ps →
       a.consumer ≠ c.consumer →
       ProcessMsgACK c a =
         (some ("no records related to consumer " ++ a.consumer ++ " on stream "
                ++ a.stream), c, [])) := by
  have hInv := consumerInvariant_reachable c h
  refine ⟨hInv, ?_⟩
  intro a ps hps hne
  obtain ⟨pc, rfl⟩ := hInv a.stream ps hps
  have hne' : ¬ (c.consumer = a.consumer) := fun he => hne he.symm
  have h2 : lookupA [(c.consumer, pc)] a.consumer = none := by
    rw [lookupA, if_neg hne']
    rfl
  simp [ProcessMsgACK, hps, h2]

/-- C9 witness: after recording one message for consumer C, an ack naming
consumer D on the known stream S is rejected with the `no records related
to consumer` error and the state is unchanged. -/
theorem inflight_consumer_invariant_witness :
    consumerInvariant
      (ProcessInflightMessage (initialTracker "subj" "C")
        { payload := "p"
          metadata := MetaResult.ok
            { stream := "S", consumer := "C", seqStream := 42, seqConsumer := 7 }
          ackSyncErr := none }).2 ∧
    ProcessMsgACK
      (ProcessInflightMessage (initialTracker "subj" "C")
        { payload := "p"
          metadata := MetaResult.ok
            { stream := "S", consumer := "C", seqStream := 42, seqConsumer := 7 }
          ackSyncErr := none }).2
      { stream := "S", consumer := "D", seqNum := { stream := 42, consumer := 7 } } =
      (some "no records related to consumer D on stream S",
       (ProcessInflightMessage (initialTracker "subj" "C")
         { payload := "p"
           metadata := MetaResult.ok
             { stream := "S", consumer := "C", seqStream := 42, seqConsumer := 7 }
           ackSyncErr := none }).2,
       []) := by
  have h := inflight_consumer_invariant
    (ProcessInflightMessage (initialTracker "subj" "C")
      { payload := "p"
        metadata := MetaResult.ok
          { stream := "S", consumer := "C", seqStream := 42, seqConsumer := 7 }
        ackSyncErr := none }).2
    (Reachable.record (initialTracker "subj" "C")
      { payload := "p"
        metadata := MetaResult.ok
          { stream := "S", consumer := "C", seqStream := 42, seqConsumer := 7 }
        ackSyncErr := none }
      (Reachable.init "subj" "C"))
  refine ⟨h.1, ?_⟩
  have h2 := h.2
    { stream := "S", consumer := "D", seqNum := { stream := 42, consumer := 7 } }
    [("C", [(42, { payload := "p"
                   metadata := MetaResult.ok
                     { stream := "S", consumer := "C", seqStream := 42, seqConsumer := 7 }
                   ackSyncErr := none })])]
    rfl (by decide)
  exact h2.trans (by decide)

end Httpmq
